import Mathlib

/-!
# FireTools calculation engine — shallow embedding

Embedding of the three pure numeric routines of the FireTools repository:
the Hazen-Williams friction-loss calculator and the sprinkler discharge
calculator (`src/utils/hydraulics.ts`) and the detector layout planner
(`src/utils/detection.ts`).  JavaScript numbers are modelled as real
numbers; `Math.round` is modelled as `fun x => ⌊x + 1/2⌋` (the JS
half-up convention), `Math.ceil` on the positive quantities involved as
`Nat.ceil`, `Math.sqrt` as `Real.sqrt`, and `Math.pow` with the
fractional exponents 1.852 and 4.87 as `Real.rpow`.  The user-facing
message strings are modelled by inductive types whose constructors carry
the interpolated numeric values (the `toFixed` display formatting of a
carried value is abstracted away; the value itself is carried exactly).
-/

/-- JS `Math.round`: nearest integer, halves toward positive infinity. -/
noncomputable def jsRound (x : ℝ) : ℝ := (⌊x + 1/2⌋ : ℤ)

/-! ## Hydraulics (`src/utils/hydraulics.ts`) -/

/-- Return type of `calcularPerdidaCarga`. -/
structure ResultadoPerdidaCarga where
  perdidaBar : ℝ
  velocidadMs : ℝ
  perdidaPorMetro : ℝ

/-- `calcularPerdidaCarga` from `src/utils/hydraulics.ts`: Hazen-Williams
friction loss.  Inputs: flow in L/min, inner diameter in mm, length in m,
Hazen-Williams coefficient C. -/
noncomputable def calcularPerdidaCarga (caudalLpm diametroMm longitudM coeficienteC : ℝ) :
    ResultadoPerdidaCarga :=
  let caudalM3s := caudalLpm / 60000
  let diametroM := diametroMm / 1000
  let area := Real.pi * (diametroM / 2) ^ 2
  let velocidadMs := caudalM3s / area
  let perdidaPorMetro := 10.67 * caudalM3s ^ (1.852 : ℝ) /
    (coeficienteC ^ (1.852 : ℝ) * diametroM ^ (4.87 : ℝ))
  let perdidaTotalM := perdidaPorMetro * longitudM
  let perdidaBar := perdidaTotalM / 10.197
  { perdidaBar := jsRound (perdidaBar * 1000) / 1000
    velocidadMs := jsRound (velocidadMs * 100) / 100
    perdidaPorMetro := jsRound (perdidaPorMetro * 10000) / 10000 }

/-- Return type of `calcularCaudalRociador`. -/
structure ResultadoCaudal where
  caudalLpm : ℝ

/-- `calcularCaudalRociador` from `src/utils/hydraulics.ts`: sprinkler
discharge `Q = K * sqrt(P * 10)`, rounded to one decimal. -/
noncomputable def calcularCaudalRociador (factorK presionBar : ℝ) : ResultadoCaudal :=
  let caudalLpm := factorK * Real.sqrt (presionBar * 10)
  { caudalLpm := jsRound (caudalLpm * 10) / 10 }

/-! ## Detector layout (`src/utils/detection.ts`) -/

/-- `TipoDetector` from `src/utils/detection.ts`. -/
structure TipoDetector where
  nombre : String
  coberturaMaxM2 : List ℝ
  alturaMaxM : ℝ

/-- The `tiposDetectores` reference table from `src/utils/detection.ts`. -/
def tiposDetectores : List TipoDetector :=
  [ { nombre := "Detector optico de humos (puntual)"
      coberturaMaxM2 := [80, 80, 60, 40], alturaMaxM := 12 }
  , { nombre := "Detector ionico de humos"
      coberturaMaxM2 := [80, 80, 60, 40], alturaMaxM := 12 }
  , { nombre := "Detector termico (clase A1)"
      coberturaMaxM2 := [30, 20, 0, 0], alturaMaxM := 7.5 }
  , { nombre := "Detector termico (clase A2)"
      coberturaMaxM2 := [20, 15, 0, 0], alturaMaxM := 6 }
  , { nombre := "Detector termovelocimetrico"
      coberturaMaxM2 := [30, 20, 0, 0], alturaMaxM := 7.5 }
  , { nombre := "Detector de llama (IR/UV)"
      coberturaMaxM2 := [200, 200, 200, 200], alturaMaxM := 20 } ]

/-- `obtenerRangoAltura` from `src/utils/detection.ts`: height-band index
with the fixed breakpoints 6/8/10 m. -/
noncomputable def obtenerRangoAltura (alturaM : ℝ) : ℕ :=
  if alturaM ≤ 6 then 0
  else if alturaM ≤ 8 then 1
  else if alturaM ≤ 10 then 2
  else 3

/-- The `mensaje` field of a layout result: either empty, the
height-limit rejection text (carrying the interpolated `alturaMaxM`), or
the unsuitable-class rejection text. -/
inductive Mensaje where
  | ninguna : Mensaje
  | alturaMaxima : ℝ → Mensaje
  | noAdecuado : Mensaje

/-- A warning string pushed into `advertencias`: names the axis and
carries the real spacing and the maximum spacing it exceeds. -/
inductive Advertencia where
  | espaciamientoLargo : ℝ → ℝ → Advertencia
  | espaciamientoAncho : ℝ → ℝ → Advertencia

/-- `ResultadoDetectores` from `src/utils/detection.ts`. -/
structure ResultadoDetectores where
  areaM2 : ℝ
  numDetectoresMinimo : ℕ
  coberturaMaximaM2 : ℝ
  espaciamientoMaximoM : ℝ
  numDetectoresReal : ℕ
  detectoresLargo : ℕ
  detectoresAncho : ℕ
  espaciamientoLargoM : ℝ
  espaciamientoAnchoM : ℝ
  distanciaParedLargoM : ℝ
  distanciaParedAnchoM : ℝ
  valido : Bool
  mensaje : Mensaje
  advertencias : List Advertencia

/-- The body of `calcularEspaciamientoDetectores` from
`src/utils/detection.ts`, factored over the detector record it reads
from the table (`const detector = tiposDetectores[tipoDetectorIndex]`). -/
noncomputable def calcularEspaciamientoDetectoresDe (detector : TipoDetector)
    (alturaM largoM anchoM : ℝ) : ResultadoDetectores :=
  let areaM2 := largoM * anchoM
  if alturaM > detector.alturaMaxM then
    { areaM2 := areaM2
      numDetectoresMinimo := 0
      coberturaMaximaM2 := 0
      espaciamientoMaximoM := 0
      numDetectoresReal := 0
      detectoresLargo := 0
      detectoresAncho := 0
      espaciamientoLargoM := 0
      espaciamientoAnchoM := 0
      distanciaParedLargoM := 0
      distanciaParedAnchoM := 0
      valido := false
      mensaje := Mensaje.alturaMaxima detector.alturaMaxM
      advertencias := [] }
  else
    let rangoAltura := obtenerRangoAltura alturaM
    let coberturaMaximaM2 := detector.coberturaMaxM2.getD rangoAltura 0
    if coberturaMaximaM2 = 0 then
      { areaM2 := areaM2
        numDetectoresMinimo := 0
        coberturaMaximaM2 := 0
        espaciamientoMaximoM := 0
        numDetectoresReal := 0
        detectoresLargo := 0
        detectoresAncho := 0
        espaciamientoLargoM := 0
        espaciamientoAnchoM := 0
        distanciaParedLargoM := 0
        distanciaParedAnchoM := 0
        valido := false
        mensaje := Mensaje.noAdecuado
        advertencias := [] }
    else
      let espaciamientoMaximoM := Real.sqrt coberturaMaximaM2
      let numDetectoresMinimo := ⌈areaM2 / coberturaMaximaM2⌉₊
      let detectoresLargo := ⌈largoM / espaciamientoMaximoM⌉₊
      let detectoresAncho := ⌈anchoM / espaciamientoMaximoM⌉₊
      let numDetectoresReal := detectoresLargo * detectoresAncho
      let espaciamientoLargoM := largoM / detectoresLargo
      let espaciamientoAnchoM := anchoM / detectoresAncho
      let distanciaParedLargoM := espaciamientoLargoM / 2
      let distanciaParedAnchoM := espaciamientoAnchoM / 2
      let advertencias :=
        (if espaciamientoLargoM > espaciamientoMaximoM * 1.05 then
          [Advertencia.espaciamientoLargo espaciamientoLargoM espaciamientoMaximoM]
        else []) ++
        (if espaciamientoAnchoM > espaciamientoMaximoM * 1.05 then
          [Advertencia.espaciamientoAncho espaciamientoAnchoM espaciamientoMaximoM]
        else [])
      { areaM2 := jsRound (areaM2 * 100) / 100
        numDetectoresMinimo := numDetectoresMinimo
        coberturaMaximaM2 := coberturaMaximaM2
        espaciamientoMaximoM := jsRound (espaciamientoMaximoM * 100) / 100
        numDetectoresReal := numDetectoresReal
        detectoresLargo := detectoresLargo
        detectoresAncho := detectoresAncho
        espaciamientoLargoM := jsRound (espaciamientoLargoM * 100) / 100
        espaciamientoAnchoM := jsRound (espaciamientoAnchoM * 100) / 100
        distanciaParedLargoM := jsRound (distanciaParedLargoM * 100) / 100
        distanciaParedAnchoM := jsRound (distanciaParedAnchoM * 100) / 100
        valido := true
        mensaje := Mensaje.ninguna
        advertencias := advertencias }

/-- `calcularEspaciamientoDetectores` from `src/utils/detection.ts`: reads
the detector record at the caller-supplied index and runs the planner.
An out-of-range index is a caller contract violation in the source; the
`getD` default is never reached by an in-range call. -/
noncomputable def calcularEspaciamientoDetectores (tipoDetectorIndex : ℕ)
    (alturaM largoM anchoM : ℝ) : ResultadoDetectores :=
  calcularEspaciamientoDetectoresDe
    (tiposDetectores.getD tipoDetectorIndex ⟨"", [], 0⟩) alturaM largoM anchoM

/-! ## Helper lemmas -/

lemma jsRound_eq {x : ℝ} {n : ℤ} (h1 : (n : ℝ) ≤ x + 1/2) (h2 : x + 1/2 < n + 1) :
    jsRound x = n := by
  unfold jsRound
  exact_mod_cast congrArg (fun z : ℤ => (z : ℝ)) (Int.floor_eq_iff.mpr ⟨h1, by exact_mod_cast h2⟩)

lemma jsRound_mono {x y : ℝ} (h : x ≤ y) : jsRound x ≤ jsRound y := by
  unfold jsRound
  exact_mod_cast Int.floor_le_floor (by linarith)

/-- The accepted-branch result of the planner, with every field written
out explicitly (used to state projection facts about accepted runs). -/
noncomputable def resultadoAceptado (cob l w : ℝ) : ResultadoDetectores :=
  let s := Real.sqrt cob
  let nL := ⌈l / s⌉₊
  let nA := ⌈w / s⌉₊
  { areaM2 := jsRound (l * w * 100) / 100
    numDetectoresMinimo := ⌈l * w / cob⌉₊
    coberturaMaximaM2 := cob
    espaciamientoMaximoM := jsRound (s * 100) / 100
    numDetectoresReal := nL * nA
    detectoresLargo := nL
    detectoresAncho := nA
    espaciamientoLargoM := jsRound (l / nL * 100) / 100
    espaciamientoAnchoM := jsRound (w / nA * 100) / 100
    distanciaParedLargoM := jsRound (l / nL / 2 * 100) / 100
    distanciaParedAnchoM := jsRound (w / nA / 2 * 100) / 100
    valido := true
    mensaje := Mensaje.ninguna
    advertencias :=
      (if l / nL > s * 1.05 then [Advertencia.espaciamientoLargo (l / nL) s] else []) ++
      (if w / nA > s * 1.05 then [Advertencia.espaciamientoAncho (w / nA) s] else []) }

/-- A rejection result: `valido = false`, everything but the area zeroed. -/
def resultadoRechazo (areaM2 : ℝ) (m : Mensaje) : ResultadoDetectores :=
  { areaM2 := areaM2
    numDetectoresMinimo := 0
    coberturaMaximaM2 := 0
    espaciamientoMaximoM := 0
    numDetectoresReal := 0
    detectoresLargo := 0
    detectoresAncho := 0
    espaciamientoLargoM := 0
    espaciamientoAnchoM := 0
    distanciaParedLargoM := 0
    distanciaParedAnchoM := 0
    valido := false
    mensaje := m
    advertencias := [] }

lemma core_altura (d : TipoDetector) (h l w : ℝ) (hh : d.alturaMaxM < h) :
    calcularEspaciamientoDetectoresDe d h l w =
      resultadoRechazo (l * w) (Mensaje.alturaMaxima d.alturaMaxM) := by
  simp only [calcularEspaciamientoDetectoresDe, resultadoRechazo]
  rw [if_pos hh]

lemma core_cobertura_cero (d : TipoDetector) (h l w : ℝ) (hh : h ≤ d.alturaMaxM)
    (hc : d.coberturaMaxM2.getD (obtenerRangoAltura h) 0 = 0) :
    calcularEspaciamientoDetectoresDe d h l w =
      resultadoRechazo (l * w) Mensaje.noAdecuado := by
  simp only [calcularEspaciamientoDetectoresDe, resultadoRechazo]
  rw [if_neg (not_lt.mpr hh), if_pos hc]

lemma core_aceptado (d : TipoDetector) (h l w : ℝ) (hh : h ≤ d.alturaMaxM)
    (hc : d.coberturaMaxM2.getD (obtenerRangoAltura h) 0 ≠ 0) :
    calcularEspaciamientoDetectoresDe d h l w =
      resultadoAceptado (d.coberturaMaxM2.getD (obtenerRangoAltura h) 0) l w := by
  simp only [calcularEspaciamientoDetectoresDe, resultadoAceptado]
  rw [if_neg (not_lt.mpr hh), if_neg hc]

/-! ## Claim theorems -/

/-- C2 (counterexample): the rejection for excessive ceiling height does
not zero the area field: at detector 0 (max height 12 m), height 13 m in
a 10 m by 10 m room the result has `valido = false` but `areaM2 = 100`. -/
theorem rechazo_altura_area_no_cero :
    (calcularEspaciamientoDetectores 0 13 10 10).valido = false ∧
    (calcularEspaciamientoDetectores 0 13 10 10).areaM2 ≠ 0 := by
  have e : calcularEspaciamientoDetectores 0 13 10 10 =
      resultadoRechazo (10 * 10) (Mensaje.alturaMaxima 12) := by
    unfold calcularEspaciamientoDetectores
    exact core_altura _ _ _ _ (by norm_num [tiposDetectores])
  rw [e]
  refine ⟨rfl, ?_⟩
  show (10 * 10 : ℝ) ≠ 0
  norm_num

/-- C2 (amended): for every detector record and every ceiling height
strictly above its `alturaMaxM`, the planner returns a terminal rejection:
`valido = false`, every computed field except the area equal to zero, the
area equal to length times width, the message carrying the detector's
height limit, and no warnings. -/
theorem rechazo_altura_campos (d : TipoDetector) (h l w : ℝ) (hh : d.alturaMaxM < h) :
    (calcularEspaciamientoDetectoresDe d h l w).valido = false ∧
    (calcularEspaciamientoDetectoresDe d h l w).areaM2 = l * w ∧
    (calcularEspaciamientoDetectoresDe d h l w).numDetectoresMinimo = 0 ∧
    (calcularEspaciamientoDetectoresDe d h l w).coberturaMaximaM2 = 0 ∧
    (calcularEspaciamientoDetectoresDe d h l w).espaciamientoMaximoM = 0 ∧
    (calcularEspaciamientoDetectoresDe d h l w).numDetectoresReal = 0 ∧
    (calcularEspaciamientoDetectoresDe d h l w).detectoresLargo = 0 ∧
    (calcularEspaciamientoDetectoresDe d h l w).detectoresAncho = 0 ∧
    (calcularEspaciamientoDetectoresDe d h l w).espaciamientoLargoM = 0 ∧
    (calcularEspaciamientoDetectoresDe d h l w).espaciamientoAnchoM = 0 ∧
    (calcularEspaciamientoDetectoresDe d h l w).distanciaParedLargoM = 0 ∧
    (calcularEspaciamientoDetectoresDe d h l w).distanciaParedAnchoM = 0 ∧
    (calcularEspaciamientoDetectoresDe d h l w).mensaje = Mensaje.alturaMaxima d.alturaMaxM ∧
    (calcularEspaciamientoDetectoresDe d h l w).advertencias = [] := by
  rw [core_altura d h l w hh]
  exact ⟨rfl, rfl, rfl, rfl, rfl, rfl, rfl, rfl, rfl, rfl, rfl, rfl, rfl, rfl⟩

/-- Witness for the amended C2 at a concrete detector and height. -/
theorem rechazo_altura_campos_testigo :
    (calcularEspaciamientoDetectoresDe ⟨"d", [1], 1⟩ 2 3 4).valido = false ∧
    (calcularEspaciamientoDetectoresDe ⟨"d", [1], 1⟩ 2 3 4).areaM2 = 3 * 4 ∧
    (calcularEspaciamientoDetectoresDe ⟨"d", [1], 1⟩ 2 3 4).mensaje = Mensaje.alturaMaxima 1 := by
  have h := rechazo_altura_campos ⟨"d", [1], 1⟩ 2 3 4 (by norm_num)
  exact ⟨h.1, h.2.1, h.2.2.2.2.2.2.2.2.2.2.2.2.1⟩

/-- C7: for a ceiling height within the detector's limit, the band is
resolved by the fixed breakpoints 6/8/10 m, and a zero coverage entry for
the resolved band yields the distinct "unsuitable" terminal rejection,
never the "height exceeded" message. -/
theorem rechazo_cobertura_cero (d : TipoDetector) (h l w : ℝ)
    (hh : h ≤ d.alturaMaxM)
    (hc : d.coberturaMaxM2.getD (obtenerRangoAltura h) 0 = 0) :
    ((h ≤ 6 → obtenerRangoAltura h = 0) ∧
     (6 < h → h ≤ 8 → obtenerRangoAltura h = 1) ∧
     (8 < h → h ≤ 10 → obtenerRangoAltura h = 2) ∧
     (10 < h → obtenerRangoAltura h = 3)) ∧
    (calcularEspaciamientoDetectoresDe d h l w).valido = false ∧
    (calcularEspaciamientoDetectoresDe d h l w).mensaje = Mensaje.noAdecuado ∧
    ∀ x : ℝ, (calcularEspaciamientoDetectoresDe d h l w).mensaje ≠ Mensaje.alturaMaxima x := by
  rw [core_cobertura_cero d h l w hh hc]
  refine ⟨⟨?_, ?_, ?_, ?_⟩, rfl, rfl, fun x hx => Mensaje.noConfusion hx⟩
  · intro h6
    simp [obtenerRangoAltura, h6]
  · intro h6 h8
    simp [obtenerRangoAltura, not_le.mpr h6, h8]
  · intro h8 h10
    simp [obtenerRangoAltura, not_le.mpr (by linarith : (6:ℝ) < h), not_le.mpr h8, h10]
  · intro h10
    simp [obtenerRangoAltura, not_le.mpr (by linarith : (6:ℝ) < h),
      not_le.mpr (by linarith : (8:ℝ) < h), not_le.mpr h10]

/-- Witness for C7: a detector class with band-1 coverage 0 at height
7 m rejects with the "unsuitable" message. -/
theorem rechazo_cobertura_cero_testigo :
    (calcularEspaciamientoDetectoresDe ⟨"d", [30, 0, 0, 0], 7.5⟩ 7 10 10).valido = false ∧
    (calcularEspaciamientoDetectoresDe ⟨"d", [30, 0, 0, 0], 7.5⟩ 7 10 10).mensaje =
      Mensaje.noAdecuado := by
  have hr : obtenerRangoAltura (7 : ℝ) = 1 := by
    unfold obtenerRangoAltura
    rw [if_neg (by norm_num), if_pos (by norm_num)]
  have h := rechazo_cobertura_cero ⟨"d", [30, 0, 0, 0], 7.5⟩ 7 10 10 (by norm_num) (by rw [hr]; rfl)
  exact ⟨h.2.1, h.2.2.1⟩

/-- C6: the sprinkler discharge is `K * sqrt(P * 10)` rounded to one
decimal, and `calcularCaudalRociador 80 0.5` returns 178.9 L/min. -/
theorem caudal_rociador_formula :
    (∀ k p : ℝ, (calcularCaudalRociador k p).caudalLpm =
      jsRound (k * Real.sqrt (p * 10) * 10) / 10) ∧
    (calcularCaudalRociador 80 0.5).caudalLpm = 178.9 := by
  constructor
  · intro k p
    rfl
  · have h5 : ((0.5 : ℝ) * 10) = 5 := by norm_num
    have hl : (2.236 : ℝ) ≤ Real.sqrt 5 := by
      nlinarith [Real.sq_sqrt (show (0:ℝ) ≤ 5 by norm_num), Real.sqrt_nonneg 5]
    have hu : Real.sqrt 5 < 2.2361 := by
      nlinarith [Real.sq_sqrt (show (0:ℝ) ≤ 5 by norm_num), Real.sqrt_nonneg 5]
    show jsRound ((80 : ℝ) * Real.sqrt (0.5 * 10) * 10) / 10 = 178.9
    rw [h5, jsRound_eq (n := 1789) (by push_cast; linarith) (by push_cast; linarith)]
    norm_num

lemma espaciamiento_real_le {L s : ℝ} (hL : 0 < L) (hs : 0 < s) :
    L / (⌈L / s⌉₊ : ℝ) ≤ s := by
  have hcpos : 0 < (⌈L / s⌉₊ : ℝ) := by
    exact_mod_cast Nat.ceil_pos.mpr (div_pos hL hs)
  rw [div_le_iff hcpos]
  have h1 : L / s ≤ (⌈L / s⌉₊ : ℝ) := Nat.le_ceil _
  calc L = L / s * s := by field_simp
    _ ≤ (⌈L / s⌉₊ : ℝ) * s := mul_le_mul_of_nonneg_right h1 hs.le
    _ = s * (⌈L / s⌉₊ : ℝ) := mul_comm _ _

lemma resultadoAceptado_areaM2 (cob l w : ℝ) :
    (resultadoAceptado cob l w).areaM2 = jsRound (l * w * 100) / 100 := rfl

lemma resultadoAceptado_numDetectoresMinimo (cob l w : ℝ) :
    (resultadoAceptado cob l w).numDetectoresMinimo = ⌈l * w / cob⌉₊ := rfl

lemma resultadoAceptado_coberturaMaximaM2 (cob l w : ℝ) :
    (resultadoAceptado cob l w).coberturaMaximaM2 = cob := rfl

lemma resultadoAceptado_espaciamientoMaximoM (cob l w : ℝ) :
    (resultadoAceptado cob l w).espaciamientoMaximoM =
      jsRound (Real.sqrt cob * 100) / 100 := rfl

lemma resultadoAceptado_detectoresLargo (cob l w : ℝ) :
    (resultadoAceptado cob l w).detectoresLargo = ⌈l / Real.sqrt cob⌉₊ := rfl

lemma resultadoAceptado_detectoresAncho (cob l w : ℝ) :
    (resultadoAceptado cob l w).detectoresAncho = ⌈w / Real.sqrt cob⌉₊ := rfl

lemma resultadoAceptado_numDetectoresReal (cob l w : ℝ) :
    (resultadoAceptado cob l w).numDetectoresReal =
      ⌈l / Real.sqrt cob⌉₊ * ⌈w / Real.sqrt cob⌉₊ := rfl

lemma resultadoAceptado_espaciamientoLargoM (cob l w : ℝ) :
    (resultadoAceptado cob l w).espaciamientoLargoM =
      jsRound (l / (⌈l / Real.sqrt cob⌉₊ : ℝ) * 100) / 100 := rfl

lemma resultadoAceptado_espaciamientoAnchoM (cob l w : ℝ) :
    (resultadoAceptado cob l w).espaciamientoAnchoM =
      jsRound (w / (⌈w / Real.sqrt cob⌉₊ : ℝ) * 100) / 100 := rfl

lemma resultadoAceptado_valido (cob l w : ℝ) :
    (resultadoAceptado cob l w).valido = true := rfl

lemma resultadoAceptado_advertencias (cob l w : ℝ) :
    (resultadoAceptado cob l w).advertencias =
      (if l / (⌈l / Real.sqrt cob⌉₊ : ℝ) > Real.sqrt cob * 1.05 then
        [Advertencia.espaciamientoLargo (l / (⌈l / Real.sqrt cob⌉₊ : ℝ)) (Real.sqrt cob)]
      else []) ++
      (if w / (⌈w / Real.sqrt cob⌉₊ : ℝ) > Real.sqrt cob * 1.05 then
        [Advertencia.espaciamientoAncho (w / (⌈w / Real.sqrt cob⌉₊ : ℝ)) (Real.sqrt cob)]
      else []) := rfl

/-- C3: on every accepted run the planner uses maximum spacing
`sqrt(coverage)`, counts `ceil(length / maxSpacing)` and
`ceil(width / maxSpacing)` per axis and their product as the total; and
the 10 m by 10 m, 3 m-high scenario for the class-A1 thermal detector
(table index 2, coverage 30 at band 0) yields maximum spacing 5.48,
a 2 by 2 grid, real spacing 5.0 on each axis, a valid result and no
warnings. -/
theorem planner_cuadricula :
    (∀ (d : TipoDetector) (h l w : ℝ),
      h ≤ d.alturaMaxM →
      d.coberturaMaxM2.getD (obtenerRangoAltura h) 0 ≠ 0 →
      (calcularEspaciamientoDetectoresDe d h l w).espaciamientoMaximoM =
        jsRound (Real.sqrt (d.coberturaMaxM2.getD (obtenerRangoAltura h) 0) * 100) / 100 ∧
      (calcularEspaciamientoDetectoresDe d h l w).detectoresLargo =
        ⌈l / Real.sqrt (d.coberturaMaxM2.getD (obtenerRangoAltura h) 0)⌉₊ ∧
      (calcularEspaciamientoDetectoresDe d h l w).detectoresAncho =
        ⌈w / Real.sqrt (d.coberturaMaxM2.getD (obtenerRangoAltura h) 0)⌉₊ ∧
      (calcularEspaciamientoDetectoresDe d h l w).numDetectoresReal =
        (calcularEspaciamientoDetectoresDe d h l w).detectoresLargo *
          (calcularEspaciamientoDetectoresDe d h l w).detectoresAncho) ∧
    ((calcularEspaciamientoDetectores 2 3 10 10).coberturaMaximaM2 = 30 ∧
     (calcularEspaciamientoDetectores 2 3 10 10).espaciamientoMaximoM = 5.48 ∧
     (calcularEspaciamientoDetectores 2 3 10 10).detectoresLargo = 2 ∧
     (calcularEspaciamientoDetectores 2 3 10 10).detectoresAncho = 2 ∧
     (calcularEspaciamientoDetectores 2 3 10 10).numDetectoresReal = 4 ∧
     (calcularEspaciamientoDetectores 2 3 10 10).espaciamientoLargoM = 5 ∧
     (calcularEspaciamientoDetectores 2 3 10 10).espaciamientoAnchoM = 5 ∧
     (calcularEspaciamientoDetectores 2 3 10 10).valido = true ∧
     (calcularEspaciamientoDetectores 2 3 10 10).advertencias = []) := by
  constructor
  · intro d h l w hh hc
    rw [core_aceptado d h l w hh hc]
    exact ⟨rfl, rfl, rfl, rfl⟩
  · have hr : obtenerRangoAltura (3 : ℝ) = 0 := by
      unfold obtenerRangoAltura
      rw [if_pos (by norm_num)]
    have hcob : (tiposDetectores.getD 2 ⟨"", [], 0⟩).coberturaMaxM2.getD
        (obtenerRangoAltura 3) 0 = 30 := by
      rw [hr]
      rfl
    have e : calcularEspaciamientoDetectores 2 3 10 10 = resultadoAceptado 30 10 10 := by
      unfold calcularEspaciamientoDetectores
      rw [core_aceptado _ _ _ _ (by norm_num [tiposDetectores]) (by rw [hcob]; norm_num), hcob]
    have hq := Real.sq_sqrt (show (0:ℝ) ≤ 30 by norm_num)
    have hnn := Real.sqrt_nonneg 30
    have hl30 : (5.475 : ℝ) ≤ Real.sqrt 30 := by nlinarith
    have hu30 : Real.sqrt 30 < 5.485 := by nlinarith
    have hs0 : (0:ℝ) < Real.sqrt 30 := by linarith
    have hnL : ⌈(10:ℝ) / Real.sqrt 30⌉₊ = 2 := by
      rw [Nat.ceil_eq_iff (by norm_num)]
      constructor
      · rw [lt_div_iff hs0]
        push_cast
        linarith
      · rw [div_le_iff hs0]
        push_cast
        linarith
    have h548 : jsRound (Real.sqrt 30 * 100) = ((548 : ℤ) : ℝ) :=
      jsRound_eq (by push_cast; linarith) (by push_cast; linarith)
    have hnowarn : ¬ ((10:ℝ) / ((2:ℕ):ℝ) > Real.sqrt 30 * 1.05) := by
      push_cast
      rw [not_lt]
      nlinarith
    have h500 : jsRound ((10:ℝ) / ((2:ℕ):ℝ) * 100) = ((500:ℤ):ℝ) :=
      jsRound_eq (by push_cast; norm_num) (by push_cast; norm_num)
    rw [e]
    refine ⟨resultadoAceptado_coberturaMaximaM2 _ _ _, ?_, ?_, ?_, ?_, ?_, ?_,
      resultadoAceptado_valido _ _ _, ?_⟩
    · rw [resultadoAceptado_espaciamientoMaximoM, h548]
      norm_num
    · rw [resultadoAceptado_detectoresLargo]
      exact hnL
    · rw [resultadoAceptado_detectoresAncho]
      exact hnL
    · rw [resultadoAceptado_numDetectoresReal, hnL]
    · rw [resultadoAceptado_espaciamientoLargoM, hnL, h500]
      norm_num
    · rw [resultadoAceptado_espaciamientoAnchoM, hnL, h500]
      norm_num
    · rw [resultadoAceptado_advertencias, hnL, if_neg hnowarn, if_neg hnowarn]
      rfl

lemma rango_tres : obtenerRangoAltura (3 : ℝ) = 0 := by
  unfold obtenerRangoAltura
  rw [if_pos (by norm_num)]

/-- C4: on every accepted run the result stays valid, the real spacing on
each axis is within the 5 percent tolerance of the maximum spacing, and
whenever a real spacing exceeds the tolerance the warning naming that
axis and both values is in the warning list. -/
theorem tolerancia_espaciamiento (d : TipoDetector) (h l w : ℝ)
    (hh : h ≤ d.alturaMaxM)
    (hc : 0 < d.coberturaMaxM2.getD (obtenerRangoAltura h) 0)
    (hl : 0 < l) (hw : 0 < w) :
    (calcularEspaciamientoDetectoresDe d h l w).valido = true ∧
    l / ((calcularEspaciamientoDetectoresDe d h l w).detectoresLargo : ℝ) ≤
      Real.sqrt (d.coberturaMaxM2.getD (obtenerRangoAltura h) 0) * 1.05 ∧
    w / ((calcularEspaciamientoDetectoresDe d h l w).detectoresAncho : ℝ) ≤
      Real.sqrt (d.coberturaMaxM2.getD (obtenerRangoAltura h) 0) * 1.05 ∧
    (l / ((calcularEspaciamientoDetectoresDe d h l w).detectoresLargo : ℝ) >
        Real.sqrt (d.coberturaMaxM2.getD (obtenerRangoAltura h) 0) * 1.05 →
      Advertencia.espaciamientoLargo
          (l / ((calcularEspaciamientoDetectoresDe d h l w).detectoresLargo : ℝ))
          (Real.sqrt (d.coberturaMaxM2.getD (obtenerRangoAltura h) 0)) ∈
        (calcularEspaciamientoDetectoresDe d h l w).advertencias) ∧
    (w / ((calcularEspaciamientoDetectoresDe d h l w).detectoresAncho : ℝ) >
        Real.sqrt (d.coberturaMaxM2.getD (obtenerRangoAltura h) 0) * 1.05 →
      Advertencia.espaciamientoAncho
          (w / ((calcularEspaciamientoDetectoresDe d h l w).detectoresAncho : ℝ))
          (Real.sqrt (d.coberturaMaxM2.getD (obtenerRangoAltura h) 0)) ∈
        (calcularEspaciamientoDetectoresDe d h l w).advertencias) := by
  have hs : 0 < Real.sqrt (d.coberturaMaxM2.getD (obtenerRangoAltura h) 0) :=
    Real.sqrt_pos.mpr hc
  rw [core_aceptado d h l w hh (ne_of_gt hc), resultadoAceptado_valido,
    resultadoAceptado_detectoresLargo, resultadoAceptado_detectoresAncho,
    resultadoAceptado_advertencias]
  refine ⟨rfl, le_trans (espaciamiento_real_le hl hs) (by linarith),
    le_trans (espaciamiento_real_le hw hs) (by linarith), ?_, ?_⟩
  · intro hgt
    rw [if_pos hgt]
    exact List.mem_append_left _ (List.mem_singleton_self _)
  · intro hgt
    rw [if_pos hgt]
    exact List.mem_append_right _ (List.mem_singleton_self _)

/-- Witness for C4 at the class-A1 thermal detector in a 10 m by 10 m
room at height 3 m. -/
theorem tolerancia_espaciamiento_testigo :
    (calcularEspaciamientoDetectoresDe ⟨"d", [30, 20, 0, 0], 7.5⟩ 3 10 10).valido = true ∧
    (10:ℝ) / ((calcularEspaciamientoDetectoresDe ⟨"d", [30, 20, 0, 0], 7.5⟩
        3 10 10).detectoresLargo : ℝ) ≤
      Real.sqrt (([30, 20, 0, 0] : List ℝ).getD (obtenerRangoAltura 3) 0) * 1.05 := by
  have h := tolerancia_espaciamiento ⟨"d", [30, 20, 0, 0], 7.5⟩ 3 10 10 (by norm_num)
    (by rw [rango_tres]; show (0:ℝ) < 30; norm_num) (by norm_num) (by norm_num)
  exact ⟨h.1, h.2.1⟩

/-- C9: in exact real arithmetic the real spacing of an accepted layout
never exceeds the maximum spacing itself, so both warning branches are
unreachable and the warning list of every accepted result is empty. -/
theorem advertencias_vacias (d : TipoDetector) (h l w : ℝ)
    (hh : h ≤ d.alturaMaxM)
    (hc : 0 < d.coberturaMaxM2.getD (obtenerRangoAltura h) 0)
    (hl : 0 < l) (hw : 0 < w) :
    l / ((calcularEspaciamientoDetectoresDe d h l w).detectoresLargo : ℝ) ≤
      Real.sqrt (d.coberturaMaxM2.getD (obtenerRangoAltura h) 0) ∧
    w / ((calcularEspaciamientoDetectoresDe d h l w).detectoresAncho : ℝ) ≤
      Real.sqrt (d.coberturaMaxM2.getD (obtenerRangoAltura h) 0) ∧
    (calcularEspaciamientoDetectoresDe d h l w).advertencias = [] := by
  have hs : 0 < Real.sqrt (d.coberturaMaxM2.getD (obtenerRangoAltura h) 0) :=
    Real.sqrt_pos.mpr hc
  rw [core_aceptado d h l w hh (ne_of_gt hc), resultadoAceptado_detectoresLargo,
    resultadoAceptado_detectoresAncho, resultadoAceptado_advertencias]
  refine ⟨espaciamiento_real_le hl hs, espaciamiento_real_le hw hs, ?_⟩
  rw [if_neg (not_lt.mpr (le_trans (espaciamiento_real_le hl hs) (by linarith))),
    if_neg (not_lt.mpr (le_trans (espaciamiento_real_le hw hs) (by linarith)))]
  rfl

/-- Witness for C9 at the class-A1 thermal detector in a 10 m by 10 m
room at height 3 m. -/
theorem advertencias_vacias_testigo :
    (10:ℝ) / ((calcularEspaciamientoDetectoresDe ⟨"d", [30, 20, 0, 0], 7.5⟩
        3 10 10).detectoresLargo : ℝ) ≤
      Real.sqrt (([30, 20, 0, 0] : List ℝ).getD (obtenerRangoAltura 3) 0) ∧
    (calcularEspaciamientoDetectoresDe ⟨"d", [30, 20, 0, 0], 7.5⟩ 3 10 10).advertencias = [] := by
  have h := advertencias_vacias ⟨"d", [30, 20, 0, 0], 7.5⟩ 3 10 10 (by norm_num)
    (by rw [rango_tres]; show (0:ℝ) < 30; norm_num) (by norm_num) (by norm_num)
  exact ⟨h.1, h.2.2⟩

/-- C10: on every accepted run the real grid count is at least the
theoretical minimum count by coverage. -/
theorem minimo_le_real (d : TipoDetector) (h l w : ℝ)
    (hh : h ≤ d.alturaMaxM)
    (hc : 0 < d.coberturaMaxM2.getD (obtenerRangoAltura h) 0)
    (hl : 0 < l) (hw : 0 < w) :
    (calcularEspaciamientoDetectoresDe d h l w).numDetectoresMinimo ≤
      (calcularEspaciamientoDetectoresDe d h l w).numDetectoresReal := by
  rw [core_aceptado d h l w hh (ne_of_gt hc), resultadoAceptado_numDetectoresMinimo,
    resultadoAceptado_numDetectoresReal]
  have hs : 0 < Real.sqrt (d.coberturaMaxM2.getD (obtenerRangoAltura h) 0) :=
    Real.sqrt_pos.mpr hc
  rw [Nat.ceil_le]
  push_cast
  have key : l * w / d.coberturaMaxM2.getD (obtenerRangoAltura h) 0 =
      l / Real.sqrt (d.coberturaMaxM2.getD (obtenerRangoAltura h) 0) *
        (w / Real.sqrt (d.coberturaMaxM2.getD (obtenerRangoAltura h) 0)) := by
    rw [div_mul_div_comm, Real.mul_self_sqrt hc.le]
  rw [key]
  exact mul_le_mul (Nat.le_ceil _) (Nat.le_ceil _)
    (div_nonneg hw.le hs.le) (Nat.cast_nonneg _)

/-- Witness for C10 at the class-A1 thermal detector in a 10 m by 10 m
room at height 3 m. -/
theorem minimo_le_real_testigo :
    (calcularEspaciamientoDetectoresDe ⟨"d", [30, 20, 0, 0], 7.5⟩ 3 10 10).numDetectoresMinimo ≤
      (calcularEspaciamientoDetectoresDe ⟨"d", [30, 20, 0, 0], 7.5⟩ 3 10 10).numDetectoresReal :=
  minimo_le_real ⟨"d", [30, 20, 0, 0], 7.5⟩ 3 10 10 (by norm_num)
    (by rw [rango_tres]; show (0:ℝ) < 30; norm_num) (by norm_num) (by norm_num)

lemma jsRound_div_mono (m : ℝ) (hm : 0 < m) {x y : ℝ} (h : x ≤ y) :
    jsRound x / m ≤ jsRound y / m :=
  div_le_div_of_nonneg_right (jsRound_mono h) hm.le

/-- C5: the friction-loss calculator computes the per-meter head loss
`J = 10.67 * Q^1.852 / (C^1.852 * D^4.87)` with `Q = flow / 60000` (m³/s)
and `D = diameter / 1000` (m), the total head loss `J * length` divided
by 10.197 to obtain bar, and rounds only the final outputs — pressure
drop to 3 decimals, velocity to 2 decimals, per-meter loss to 4
decimals — with full-precision intermediates inside each rounding. -/
theorem perdida_formula (q d l c : ℝ) (hq : 0 < q) (hd : 0 < d) (hl : 0 ≤ l) (hc : 0 < c) :
    (calcularPerdidaCarga q d l c).perdidaPorMetro =
      jsRound (10.67 * (q / 60000) ^ (1.852 : ℝ) /
        (c ^ (1.852 : ℝ) * (d / 1000) ^ (4.87 : ℝ)) * 10000) / 10000 ∧
    (calcularPerdidaCarga q d l c).perdidaBar =
      jsRound (10.67 * (q / 60000) ^ (1.852 : ℝ) /
        (c ^ (1.852 : ℝ) * (d / 1000) ^ (4.87 : ℝ)) * l / 10.197 * 1000) / 1000 ∧
    (calcularPerdidaCarga q d l c).velocidadMs =
      jsRound (q / 60000 / (Real.pi * (d / 1000 / 2) ^ 2) * 100) / 100 :=
  ⟨rfl, rfl, rfl⟩

/-- Witness for C5 at flow 500 L/min, diameter 50 mm, length 100 m, C 120. -/
theorem perdida_formula_testigo :
    (calcularPerdidaCarga 500 50 100 120).perdidaPorMetro =
      jsRound (10.67 * ((500 : ℝ) / 60000) ^ (1.852 : ℝ) /
        ((120 : ℝ) ^ (1.852 : ℝ) * ((50 : ℝ) / 1000) ^ (4.87 : ℝ)) * 10000) / 10000 ∧
    (calcularPerdidaCarga 500 50 100 120).perdidaBar =
      jsRound (10.67 * ((500 : ℝ) / 60000) ^ (1.852 : ℝ) /
        ((120 : ℝ) ^ (1.852 : ℝ) * ((50 : ℝ) / 1000) ^ (4.87 : ℝ)) * 100 / 10.197 * 1000) / 1000 ∧
    (calcularPerdidaCarga 500 50 100 120).velocidadMs =
      jsRound ((500 : ℝ) / 60000 / (Real.pi * ((50 : ℝ) / 1000 / 2) ^ 2) * 100) / 100 :=
  perdida_formula 500 50 100 120 (by norm_num) (by norm_num) (by norm_num) (by norm_num)

/-- C8: the returned pressure drop is monotonically non-decreasing in
flow and in length, and monotonically non-increasing in diameter and in
the Hazen-Williams coefficient, the other arguments held fixed. -/
theorem perdida_monotonia (q q' d d' l l' c c' : ℝ)
    (hq0 : 0 ≤ q) (hqq : q ≤ q') (hd0 : 0 < d) (hdd : d ≤ d')
    (hl0 : 0 ≤ l) (hll : l ≤ l') (hc0 : 0 < c) (hcc : c ≤ c') :
    (calcularPerdidaCarga q d l c).perdidaBar ≤ (calcularPerdidaCarga q' d l c).perdidaBar ∧
    (calcularPerdidaCarga q d l c).perdidaBar ≤ (calcularPerdidaCarga q d l' c).perdidaBar ∧
    (calcularPerdidaCarga q d' l c).perdidaBar ≤ (calcularPerdidaCarga q d l c).perdidaBar ∧
    (calcularPerdidaCarga q d l c').perdidaBar ≤ (calcularPerdidaCarga q d l c).perdidaBar := by
  have e : ∀ a b g e : ℝ, (calcularPerdidaCarga a b g e).perdidaBar =
      jsRound (10.67 * (a / 60000) ^ (1.852 : ℝ) /
        (e ^ (1.852 : ℝ) * (b / 1000) ^ (4.87 : ℝ)) * g / 10.197 * 1000) / 1000 :=
    fun _ _ _ _ => rfl
  simp only [e]
  refine ⟨?_, ?_, ?_, ?_⟩
  · apply jsRound_div_mono _ (by norm_num)
    gcongr
  · apply jsRound_div_mono _ (by norm_num)
    gcongr
  · apply jsRound_div_mono _ (by norm_num)
    gcongr
  · apply jsRound_div_mono _ (by norm_num)
    gcongr

/-- Witness for C8 at concrete flows 500 and 600 L/min, diameters 50 and
60 mm, lengths 100 and 110 m, coefficients 120 and 130. -/
theorem perdida_monotonia_testigo :
    (calcularPerdidaCarga 500 50 100 120).perdidaBar ≤
      (calcularPerdidaCarga 600 50 100 120).perdidaBar ∧
    (calcularPerdidaCarga 500 50 100 120).perdidaBar ≤
      (calcularPerdidaCarga 500 50 110 120).perdidaBar ∧
    (calcularPerdidaCarga 500 60 100 120).perdidaBar ≤
      (calcularPerdidaCarga 500 50 100 120).perdidaBar ∧
    (calcularPerdidaCarga 500 50 100 130).perdidaBar ≤
      (calcularPerdidaCarga 500 50 100 120).perdidaBar :=
  perdida_monotonia 500 600 50 60 100 110 120 130 (by norm_num) (by norm_num) (by norm_num)
    (by norm_num) (by norm_num) (by norm_num) (by norm_num) (by norm_num)

/-! ## Scenario values of the friction-loss calculator (claim C1)

`Math.pow` with the fractional exponents is bracketed by rational bounds
through integer powers: `a ≤ x ^ (k/n)` is reduced to `a ^ n ≤ x ^ k`. -/

lemma rpow_le_of_pow_le {x a e : ℝ} {n k : ℕ} (hn : n ≠ 0) (hx : 0 ≤ x)
    (he : e * n = k) (h : a ^ n ≤ x ^ k) : a ≤ x ^ e := by
  have h1 : (x ^ e) ^ n = x ^ k := by
    rw [← Real.rpow_natCast (x ^ e) n, ← Real.rpow_mul hx, he, Real.rpow_natCast]
  exact le_of_pow_le_pow_left hn (Real.rpow_nonneg hx e) (by rw [h1]; exact h)

lemma rpow_le_of_le_pow {x b e : ℝ} {n k : ℕ} (hn : n ≠ 0) (hx : 0 ≤ x) (hb : 0 ≤ b)
    (he : e * n = k) (h : x ^ k ≤ b ^ n) : x ^ e ≤ b := by
  have h1 : (x ^ e) ^ n = x ^ k := by
    rw [← Real.rpow_natCast (x ^ e) n, ← Real.rpow_mul hx, he, Real.rpow_natCast]
  exact le_of_pow_le_pow_left hn hb (by rw [h1]; exact h)

lemma rpow120_lo : (7089.95808 : ℝ) ≤ (120 : ℝ) ^ (1.852 : ℝ) :=
  rpow_le_of_pow_le (n := 250) (k := 463) (by norm_num) (by norm_num) (by norm_num) (by norm_num)

lemma rpow120_hi : (120 : ℝ) ^ (1.852 : ℝ) ≤ 7089.95809 :=
  rpow_le_of_le_pow (n := 250) (k := 463) (by norm_num) (by norm_num) (by norm_num)
    (by norm_num) (by norm_num)

lemma rpow20_lo : (2167784.36 : ℝ) ≤ (20 : ℝ) ^ (4.87 : ℝ) :=
  rpow_le_of_pow_le (n := 100) (k := 487) (by norm_num) (by norm_num) (by norm_num) (by norm_num)

lemma rpow20_hi : (20 : ℝ) ^ (4.87 : ℝ) ≤ 2167784.37 :=
  rpow_le_of_le_pow (n := 100) (k := 487) (by norm_num) (by norm_num) (by norm_num)
    (by norm_num) (by norm_num)

lemma perdida_J_rw : 10.67 * ((500 : ℝ) / 60000) ^ (1.852 : ℝ) /
      ((120 : ℝ) ^ (1.852 : ℝ) * ((50 : ℝ) / 1000) ^ (4.87 : ℝ)) =
    10.67 * (20 : ℝ) ^ (4.87 : ℝ) / ((120 : ℝ) ^ (1.852 : ℝ)) ^ 2 := by
  have hB0 : (0 : ℝ) < (120 : ℝ) ^ (1.852 : ℝ) := Real.rpow_pos_of_pos (by norm_num) _
  have hY0 : (0 : ℝ) < (20 : ℝ) ^ (4.87 : ℝ) := Real.rpow_pos_of_pos (by norm_num) _
  rw [show ((500 : ℝ) / 60000) = ((120 : ℝ))⁻¹ by norm_num,
    show ((50 : ℝ) / 1000) = ((20 : ℝ))⁻¹ by norm_num,
    Real.inv_rpow (by norm_num : (0 : ℝ) ≤ 120),
    Real.inv_rpow (by norm_num : (0 : ℝ) ≤ 20)]
  field_simp
  ring

lemma perdida_J_cotas :
    10.67 * (2167784.36 : ℝ) / (7089.95809 : ℝ) ^ 2 ≤
      10.67 * ((500 : ℝ) / 60000) ^ (1.852 : ℝ) /
        ((120 : ℝ) ^ (1.852 : ℝ) * ((50 : ℝ) / 1000) ^ (4.87 : ℝ)) ∧
    10.67 * ((500 : ℝ) / 60000) ^ (1.852 : ℝ) /
        ((120 : ℝ) ^ (1.852 : ℝ) * ((50 : ℝ) / 1000) ^ (4.87 : ℝ)) ≤
      10.67 * (2167784.37 : ℝ) / (7089.95808 : ℝ) ^ 2 := by
  have hB0 : (0 : ℝ) < (120 : ℝ) ^ (1.852 : ℝ) := Real.rpow_pos_of_pos (by norm_num) _
  rw [perdida_J_rw]
  constructor
  · exact div_le_div (by positivity) (by nlinarith [rpow20_lo]) (by positivity)
      (by nlinarith [rpow120_hi, hB0])
  · exact div_le_div (by positivity) (by nlinarith [rpow20_hi]) (by positivity)
      (by nlinarith [rpow120_lo, hB0])

lemma perdida_velocidad_500 : (calcularPerdidaCarga 500 50 100 120).velocidadMs = 4.24 := by
  show jsRound ((500 : ℝ) / 60000 / (Real.pi * ((50 : ℝ) / 1000 / 2) ^ 2) * 100) / 100 = 4.24
  have harg : (500 : ℝ) / 60000 / (Real.pi * ((50 : ℝ) / 1000 / 2) ^ 2) * 100 =
      4000 / (3 * Real.pi) := by
    have hπ : Real.pi ≠ 0 := Real.pi_ne_zero
    field_simp
    ring
  have hπl : 3.141592 < Real.pi := Real.pi_gt_3141592
  have hπu : Real.pi < 3.141593 := Real.pi_lt_3141593
  have h3 : (0 : ℝ) < 3 * Real.pi := by linarith
  have hlo : (423.5 : ℝ) ≤ 4000 / (3 * Real.pi) := by
    rw [le_div_iff h3]
    nlinarith
  have hhi : 4000 / (3 * Real.pi) < 424.5 := by
    rw [div_lt_iff h3]
    nlinarith
  rw [harg, jsRound_eq (n := 424) (by push_cast; linarith) (by push_cast; linarith)]
  norm_num

lemma perdida_bar_500 : (calcularPerdidaCarga 500 50 100 120).perdidaBar = 4.513 := by
  show jsRound (10.67 * ((500 : ℝ) / 60000) ^ (1.852 : ℝ) /
      ((120 : ℝ) ^ (1.852 : ℝ) * ((50 : ℝ) / 1000) ^ (4.87 : ℝ)) * 100 / 10.197 * 1000) /
    1000 = 4.513
  obtain ⟨hJl, hJu⟩ := perdida_J_cotas
  norm_num at hJl hJu
  generalize hg : 10.67 * ((500 : ℝ) / 60000) ^ (1.852 : ℝ) /
    ((120 : ℝ) ^ (1.852 : ℝ) * ((50 : ℝ) / 1000) ^ (4.87 : ℝ)) = J at hJl hJu ⊢
  have e : J * 100 / 10.197 * 1000 = J * (100000000 / 10197) := by
    norm_num
    ring
  rw [e, jsRound_eq (n := 4513) (by push_cast; nlinarith) (by push_cast; nlinarith)]
  norm_num

lemma perdida_pm_500 : (calcularPerdidaCarga 500 50 100 120).perdidaPorMetro = 0.4601 := by
  show jsRound (10.67 * ((500 : ℝ) / 60000) ^ (1.852 : ℝ) /
      ((120 : ℝ) ^ (1.852 : ℝ) * ((50 : ℝ) / 1000) ^ (4.87 : ℝ)) * 10000) / 10000 = 0.4601
  obtain ⟨hJl, hJu⟩ := perdida_J_cotas
  norm_num at hJl hJu
  generalize hg : 10.67 * ((500 : ℝ) / 60000) ^ (1.852 : ℝ) /
    ((120 : ℝ) ^ (1.852 : ℝ) * ((50 : ℝ) / 1000) ^ (4.87 : ℝ)) = J at hJl hJu ⊢
  rw [jsRound_eq (n := 4601) (by push_cast; nlinarith) (by push_cast; nlinarith)]
  norm_num

/-- C1 (counterexample): at flow 500 L/min, diameter 50 mm, length
100 m, C 120 the calculator returns velocity 4.24 m/s, not 0.71; the
pressure drop is not 0.313 bar and the per-meter loss is not 0.0031. -/
theorem perdida_escenario_contraejemplo :
    (calcularPerdidaCarga 500 50 100 120).velocidadMs = 4.24 ∧
    (calcularPerdidaCarga 500 50 100 120).velocidadMs ≠ 0.71 ∧
    (calcularPerdidaCarga 500 50 100 120).perdidaBar ≠ 0.313 ∧
    (calcularPerdidaCarga 500 50 100 120).perdidaPorMetro ≠ 0.0031 := by
  refine ⟨perdida_velocidad_500, ?_, ?_, ?_⟩
  · rw [perdida_velocidad_500]
    norm_num
  · rw [perdida_bar_500]
    norm_num
  · rw [perdida_pm_500]
    norm_num

/-- C1 (amended): `calcularPerdidaCarga 500 50 100 120` returns
pressureDropBar 4.513, velocityMs 4.24 and dropPerMeter 0.4601, per the
documented formula and the implementation's rounding. -/
theorem perdida_escenario_valores :
    (calcularPerdidaCarga 500 50 100 120).perdidaBar = 4.513 ∧
    (calcularPerdidaCarga 500 50 100 120).velocidadMs = 4.24 ∧
    (calcularPerdidaCarga 500 50 100 120).perdidaPorMetro = 0.4601 :=
  ⟨perdida_bar_500, perdida_velocidad_500, perdida_pm_500⟩
